import Mathlib

/-!
Verification of the CRM backend (routes + storage layer + schema).

The development shallowly embeds the data model (drizzle schema), the
storage layer (class DatabaseStorage) and the HTTP route handlers
(registerRoutes) as pure Lean functions over an explicit `Storage` state.
Timestamps are `Nat` values passed in as a `now` parameter; the bcrypt
hash and compare functions are abstract function parameters, mirroring
the external bcrypt library.
-/

namespace Crm

/-- Enum market_type from the schema: 'local' | 'oversea'. -/
inductive MarketType where
  | localMarket
  | oversea
deriving DecidableEq, Repr

/-- Enum segment from the schema: 'FIT' | 'Series' | 'Group' | 'OTA' | 'Wellness'. -/
inductive Segment where
  | FIT
  | Series
  | Group
  | OTA
  | Wellness
deriving DecidableEq, Repr

/-- Enum business_type from the schema: 'Tour Operator' | 'Travel Agent'. -/
inductive BusinessType where
  | tourOperator
  | travelAgent
deriving DecidableEq, Repr

/-- Enum interaction_type from the schema: 'call' | 'email' | 'meeting' | 'note' | 'other'. -/
inductive InteractionType where
  | call
  | email
  | meeting
  | note
  | other
deriving DecidableEq, Repr

/-- Row of the admins table (schema `admins` in the shared schema file). -/
structure Admin where
  id : Nat
  username : String
  password : String
  fullName : String
  email : String
  role : String
  active : Bool
  lastLogin : Option Nat
  createdAt : Nat
deriving DecidableEq, Repr

/-- Row of the clients table (schema `clients`). Nullable columns are Options. -/
structure Client where
  id : Nat
  firstName : String
  lastName : String
  email : String
  phone : String
  marketType : MarketType
  market : Option String
  segment : Option Segment
  businessType : Option BusinessType
  headcountName : Option String
  headcountRole : Option String
  headcountEmail : Option String
  if_active : Option Bool
  createdAt : Nat
  updatedAt : Nat
  createdBy : Option Nat
deriving DecidableEq, Repr

/-- Row of the interactions table (schema `interactions`). -/
structure Interaction where
  id : Nat
  clientId : Nat
  type : InteractionType
  title : String
  description : String
  date : Nat
  createdAt : Nat
  updatedAt : Nat
  createdBy : Option Nat
deriving DecidableEq, Repr

/-- Row of the audit_logs table (schema `auditLogs`). -/
structure AuditLog where
  id : Nat
  adminId : Option Nat
  entityType : String
  entityId : Nat
  action : String
  details : String
  createdAt : Nat
deriving DecidableEq, Repr

/-- The backing store: the four tables plus serial id counters. -/
structure Storage where
  admins : List Admin
  clients : List Client
  interactions : List Interaction
  auditLogs : List AuditLog
  nextAdminId : Nat
  nextClientId : Nat
  nextInteractionId : Nat
  nextAuditLogId : Nat
deriving DecidableEq, Repr

/-- An empty store with serial counters starting at 1, as in Postgres. -/
def emptyStorage : Storage :=
  { admins := [], clients := [], interactions := [], auditLogs := []
    nextAdminId := 1, nextClientId := 1, nextInteractionId := 1, nextAuditLogId := 1 }

/-! ## Insert types (what the zod insert schemas produce) -/

/-- Parsed input of insertAdminSchema: id, lastLogin, createdAt omitted;
role and active have database defaults so they are optional. -/
structure InsertAdmin where
  username : String
  password : String
  fullName : String
  email : String
  role : Option String
  active : Option Bool
deriving DecidableEq, Repr

/-- Parsed input of insertClientSchema: id, createdAt, updatedAt omitted. -/
structure InsertClient where
  firstName : String
  lastName : String
  email : String
  phone : String
  marketType : Option MarketType
  market : Option String
  segment : Option Segment
  businessType : Option BusinessType
  headcountName : Option String
  headcountRole : Option String
  headcountEmail : Option String
  if_active : Option Bool
  createdBy : Option Nat
deriving DecidableEq, Repr

/-- Parsed input of insertInteractionSchema: id, createdAt, updatedAt omitted;
date is required (coerced). -/
structure InsertInteraction where
  clientId : Nat
  type : InteractionType
  title : String
  description : String
  date : Nat
  createdBy : Option Nat
deriving DecidableEq, Repr

/-- Input of storage.createAuditLog (insertAuditLogSchema shape). -/
structure InsertAuditLog where
  adminId : Option Nat
  entityType : String
  entityId : Nat
  action : String
  details : String
deriving DecidableEq, Repr

/-! ## Partial-update (Partial<Entity>) types. A `none` field is absent
from the patch object; for nullable columns a present field carries an
`Option` value so that explicit null updates are representable. -/

/-- Partial<Admin> as accepted verbatim by PUT /api/admins/:id. -/
structure AdminPatch where
  id : Option Nat := none
  username : Option String := none
  password : Option String := none
  fullName : Option String := none
  email : Option String := none
  role : Option String := none
  active : Option Bool := none
  lastLogin : Option (Option Nat) := none
  createdAt : Option Nat := none
deriving DecidableEq, Repr

/-- Partial<Client> as accepted verbatim by PUT /api/clients/:id. -/
structure ClientPatch where
  id : Option Nat := none
  firstName : Option String := none
  lastName : Option String := none
  email : Option String := none
  phone : Option String := none
  marketType : Option MarketType := none
  market : Option (Option String) := none
  segment : Option (Option Segment) := none
  businessType : Option (Option BusinessType) := none
  headcountName : Option (Option String) := none
  headcountRole : Option (Option String) := none
  headcountEmail : Option (Option String) := none
  if_active : Option (Option Bool) := none
  createdAt : Option Nat := none
  updatedAt : Option Nat := none
  createdBy : Option (Option Nat) := none
deriving DecidableEq, Repr

/-- Partial<Interaction> as accepted verbatim by PUT /api/interactions/:id. -/
structure InteractionPatch where
  id : Option Nat := none
  clientId : Option Nat := none
  type : Option InteractionType := none
  title : Option String := none
  description : Option String := none
  date : Option Nat := none
  createdAt : Option Nat := none
  updatedAt : Option Nat := none
  createdBy : Option (Option Nat) := none
deriving DecidableEq, Repr

/-! ## DatabaseStorage: admin methods -/

/-- storage.getAdmin: select from admins where id = id, first row. -/
def getAdmin (s : Storage) (id : Nat) : Option Admin :=
  s.admins.find? (fun a => a.id == id)

/-- storage.getAdminByUsername: select from admins where username = username. -/
def getAdminByUsername (s : Storage) (username : String) : Option Admin :=
  s.admins.find? (fun a => a.username == username)

/-- storage.createAdmin: bcrypt-hash the password (model parameter `hash`),
then insert, applying the column defaults role='user', active=true.
The unique constraint on username makes the insert fallible. -/
def createAdmin (hash : String → String) (s : Storage) (ia : InsertAdmin) (now : Nat) :
    Except String (Admin × Storage) :=
  if s.admins.any (fun a => a.username == ia.username) then
    .error "duplicate key value violates unique constraint"
  else
    let a : Admin :=
      { id := s.nextAdminId, username := ia.username, password := hash ia.password
        fullName := ia.fullName, email := ia.email, role := ia.role.getD "user"
        active := ia.active.getD true, lastLogin := none, createdAt := now }
    .ok (a, { s with admins := s.admins ++ [a], nextAdminId := s.nextAdminId + 1 })

/-- Field-wise application of a Partial<Admin> patch (the drizzle .set call). -/
def applyAdminPatch (a : Admin) (p : AdminPatch) : Admin :=
  { id := p.id.getD a.id
    username := p.username.getD a.username
    password := p.password.getD a.password
    fullName := p.fullName.getD a.fullName
    email := p.email.getD a.email
    role := p.role.getD a.role
    active := p.active.getD a.active
    lastLogin := p.lastLogin.getD a.lastLogin
    createdAt := p.createdAt.getD a.createdAt }

/-- storage.updateAdmin: `if (adminData.password)` only re-hashes a present,
truthy (non-empty) password — an explicit empty string is stored verbatim.
Then update the row where id matches, returning the updated row. -/
def updateAdmin (hash : String → String) (s : Storage) (id : Nat) (p : AdminPatch) :
    Option Admin × Storage :=
  let p' :=
    match p.password with
    | some pw => if pw == "" then p else { p with password := some (hash pw) }
    | none => p
  match s.admins.find? (fun a => a.id == id) with
  | none => (none, s)
  | some a =>
    let a2 := applyAdminPatch a p'
    (some a2, { s with admins := s.admins.map (fun x => if x.id == id then a2 else x) })

/-- Stable insertion step for ascending sort on a String key. -/
def insertByStr {α : Type} (key : α → String) (a : α) : List α → List α
  | [] => [a]
  | b :: bs => if key a ≤ key b then a :: b :: bs else b :: insertByStr key a bs

/-- Deterministic model of SQL ORDER BY on a String column (ascending). -/
def sortByStr {α : Type} (key : α → String) : List α → List α
  | [] => []
  | a :: rest => insertByStr key a (sortByStr key rest)

/-- storage.listAdmins: select all admins ordered by fullName. -/
def listAdmins (s : Storage) : List Admin :=
  sortByStr (fun a => a.fullName) s.admins

/-- storage.validatePassword delegates to bcrypt.compare; the model
treats the comparer as an abstract parameter `checkPw plain hashed`. -/
def validatePassword (checkPw : String → String → Bool) (plain hashed : String) : Bool :=
  checkPw plain hashed

/-- storage.updateLastLogin: set lastLogin = now() on the row with this id. -/
def updateLastLogin (s : Storage) (id : Nat) (now : Nat) : Storage :=
  { s with admins := s.admins.map (fun a => if a.id == id then { a with lastLogin := some now } else a) }

/-! ## DatabaseStorage: client methods -/

/-- storage.getClient: select from clients where id = id, first row. -/
def getClient (s : Storage) (id : Nat) : Option Client :=
  s.clients.find? (fun c => c.id == id)

/-- storage.createClient: insert with column defaults
(marketType 'local', if_active true, createdAt/updatedAt now()). -/
def createClient (s : Storage) (ic : InsertClient) (now : Nat) : Client × Storage :=
  let c : Client :=
    { id := s.nextClientId
      firstName := ic.firstName, lastName := ic.lastName
      email := ic.email, phone := ic.phone
      marketType := ic.marketType.getD MarketType.localMarket
      market := ic.market, segment := ic.segment, businessType := ic.businessType
      headcountName := ic.headcountName, headcountRole := ic.headcountRole
      headcountEmail := ic.headcountEmail
      if_active := some (ic.if_active.getD true)
      createdAt := now, updatedAt := now
      createdBy := ic.createdBy }
  (c, { s with clients := s.clients ++ [c], nextClientId := s.nextClientId + 1 })

/-- Field-wise application of a Partial<Client> patch; the spread
`{...clientData, updatedAt: new Date()}` makes updatedAt always `now`,
overriding any updatedAt contained in the patch. -/
def applyClientPatch (c : Client) (p : ClientPatch) (now : Nat) : Client :=
  { id := p.id.getD c.id
    firstName := p.firstName.getD c.firstName
    lastName := p.lastName.getD c.lastName
    email := p.email.getD c.email
    phone := p.phone.getD c.phone
    marketType := p.marketType.getD c.marketType
    market := p.market.getD c.market
    segment := p.segment.getD c.segment
    businessType := p.businessType.getD c.businessType
    headcountName := p.headcountName.getD c.headcountName
    headcountRole := p.headcountRole.getD c.headcountRole
    headcountEmail := p.headcountEmail.getD c.headcountEmail
    if_active := p.if_active.getD c.if_active
    createdAt := p.createdAt.getD c.createdAt
    updatedAt := now
    createdBy := p.createdBy.getD c.createdBy }

/-- storage.updateClient: update the row where id matches with the patch
plus a refreshed updatedAt, returning the updated row if one matched. -/
def updateClient (s : Storage) (id : Nat) (p : ClientPatch) (now : Nat) :
    Option Client × Storage :=
  match s.clients.find? (fun c => c.id == id) with
  | none => (none, s)
  | some c =>
    let c2 := applyClientPatch c p now
    (some c2, { s with clients := s.clients.map (fun x => if x.id == id then c2 else x) })

/-- storage.deleteClient: delete where id matches, reporting whether a row
was removed. The schema declares interactions.clientId with onDelete
cascade, so the database removes the client's interactions in the same
transaction. -/
def deleteClient (s : Storage) (id : Nat) : Bool × Storage :=
  let hit := s.clients.any (fun c => c.id == id)
  (hit,
    { s with
      clients := s.clients.filter (fun c => !(c.id == id))
      interactions := s.interactions.filter (fun i => !(i.clientId == id)) })

/-! ## DatabaseStorage: interaction methods -/

/-- storage.getInteraction: select from interactions where id = id. -/
def getInteraction (s : Storage) (id : Nat) : Option Interaction :=
  s.interactions.find? (fun i => i.id == id)

/-- Stable insertion step for descending sort on a Nat key. -/
def insertByDesc {α : Type} (key : α → Nat) (a : α) : List α → List α
  | [] => [a]
  | b :: bs => if key b ≤ key a then a :: b :: bs else b :: insertByDesc key a bs

/-- Deterministic model of SQL ORDER BY ... DESC on a Nat column. -/
def sortByDesc {α : Type} (key : α → Nat) : List α → List α
  | [] => []
  | a :: rest => insertByDesc key a (sortByDesc key rest)

/-- storage.listInteractionsByClient: select where clientId matches,
ordered by date descending. -/
def listInteractionsByClient (s : Storage) (clientId : Nat) : List Interaction :=
  sortByDesc (fun i => i.date) (s.interactions.filter (fun i => i.clientId == clientId))

/-- storage.createInteraction: insert with createdAt/updatedAt now(). -/
def createInteraction (s : Storage) (ii : InsertInteraction) (now : Nat) :
    Interaction × Storage :=
  let it : Interaction :=
    { id := s.nextInteractionId, clientId := ii.clientId, type := ii.type
      title := ii.title, description := ii.description, date := ii.date
      createdAt := now, updatedAt := now, createdBy := ii.createdBy }
  (it, { s with interactions := s.interactions ++ [it], nextInteractionId := s.nextInteractionId + 1 })

/-- Field-wise application of a Partial<Interaction> patch; updatedAt is
always refreshed by the spread in storage.updateInteraction. -/
def applyInteractionPatch (i : Interaction) (p : InteractionPatch) (now : Nat) : Interaction :=
  { id := p.id.getD i.id
    clientId := p.clientId.getD i.clientId
    type := p.type.getD i.type
    title := p.title.getD i.title
    description := p.description.getD i.description
    date := p.date.getD i.date
    createdAt := p.createdAt.getD i.createdAt
    updatedAt := now
    createdBy := p.createdBy.getD i.createdBy }

/-- storage.updateInteraction: update where id matches with the patch plus
a refreshed updatedAt. -/
def updateInteraction (s : Storage) (id : Nat) (p : InteractionPatch) (now : Nat) :
    Option Interaction × Storage :=
  match s.interactions.find? (fun i => i.id == id) with
  | none => (none, s)
  | some i =>
    let i2 := applyInteractionPatch i p now
    (some i2, { s with interactions := s.interactions.map (fun x => if x.id == id then i2 else x) })

/-- storage.deleteInteraction: delete where id matches, reporting whether
a row was removed. -/
def deleteInteraction (s : Storage) (id : Nat) : Bool × Storage :=
  let hit := s.interactions.any (fun i => i.id == id)
  (hit, { s with interactions := s.interactions.filter (fun i => !(i.id == id)) })

/-! ## DatabaseStorage: audit log methods -/

/-- storage.createAuditLog: insert one audit row with createdAt now(). -/
def createAuditLog (s : Storage) (il : InsertAuditLog) (now : Nat) : AuditLog × Storage :=
  let l : AuditLog :=
    { id := s.nextAuditLogId, adminId := il.adminId, entityType := il.entityType
      entityId := il.entityId, action := il.action, details := il.details, createdAt := now }
  (l, { s with auditLogs := s.auditLogs ++ [l], nextAuditLogId := s.nextAuditLogId + 1 })

/-- storage.getClientAuditLogs: select where entityType = 'client' and
entityId = clientId, ordered by createdAt descending. -/
def getClientAuditLogs (s : Storage) (clientId : Nat) : List AuditLog :=
  sortByDesc (fun l => l.createdAt)
    (s.auditLogs.filter (fun l => l.entityType == "client" && l.entityId == clientId))

/-! ## SQL LIKE / ILIKE semantics.
Postgres LIKE: '%' matches any sequence, '_' matches any single
character, backslash escapes the following character; ILIKE is LIKE on
the lowercased pattern and subject. -/

/-- SQL LIKE pattern matching over character lists. The '%' case tries
every suffix of the subject; '_' consumes one character; backslash
escapes the next pattern character (a pattern ending in a bare escape is
an error in Postgres, modelled as no match). -/
def likeMatch : List Char → List Char → Bool
  | [], s => s.isEmpty
  | p :: ps, s =>
    if p = '%' then
      s.tails.any (fun t => likeMatch ps t)
    else if p = '\\' then
      match ps, s with
      | pe :: ps', c :: s' => pe == c && likeMatch ps' s'
      | _, _ => false
    else if p = '_' then
      match s with
      | _ :: s' => likeMatch ps s'
      | [] => false
    else
      match s with
      | c :: s' => p == c && likeMatch ps s'
      | [] => false

/-- ASCII lowercasing of a character list: Char.toLower folds only the
letters A-Z, which agrees with Postgres lower() on ASCII data. Postgres
folds non-ASCII characters per locale, which is not modelled here, so
theorems about searchClients restrict queries and searched fields to
ASCII. -/
def lowerList (s : List Char) : List Char :=
  s.map Char.toLower

/-- ILIKE: case-insensitive LIKE. -/
def ilike (pat subj : List Char) : Bool :=
  likeMatch (lowerList pat) (lowerList subj)

/-- storage.searchClients: the raw SQL ORs three ILIKE conditions over
the pattern '%' + query + '%': full name (first || ' ' || last), email,
and phone. The SELECT has no ORDER BY clause, so the database guarantees
no particular row order for this query; the embedding's list order
stands in for one arbitrary scan order and carries no determinism
guarantee of the program. -/
def searchClients (s : Storage) (query : String) : List Client :=
  let pat := '%' :: (query.data ++ ['%'])
  s.clients.filter (fun c =>
    ilike pat (c.firstName ++ " " ++ c.lastName).data ||
    ilike pat c.email.data ||
    ilike pat c.phone.data)

/-! ## Zod validation models.
createInsertSchema derives required string/enum columns as required
fields and defaulted/nullable columns as optional ones. A raw request
body is modelled with every field optional; parsing fails on the first
missing required field with a message naming that field, as
fromZodError renders. Note that email columns are plain text columns,
so the derived schemas apply no email-format check. -/

/-- Raw JSON body of POST /api/admins before insertAdminSchema.parse. -/
structure RawAdminBody where
  username : Option String := none
  password : Option String := none
  fullName : Option String := none
  email : Option String := none
  role : Option String := none
  active : Option Bool := none
deriving DecidableEq, Repr

/-- insertAdminSchema.parse. -/
def parseInsertAdmin (b : RawAdminBody) : Except String InsertAdmin :=
  match b.username, b.password, b.fullName, b.email with
  | none, _, _, _ => .error "Validation error: Required at \"username\""
  | some _, none, _, _ => .error "Validation error: Required at \"password\""
  | some _, some _, none, _ => .error "Validation error: Required at \"fullName\""
  | some _, some _, some _, none => .error "Validation error: Required at \"email\""
  | some u, some pw, some fn, some em =>
    .ok { username := u, password := pw, fullName := fn, email := em
          role := b.role, active := b.active }

/-- Raw JSON body of POST /api/clients before insertClientSchema.parse. -/
structure RawClientBody where
  firstName : Option String := none
  lastName : Option String := none
  email : Option String := none
  phone : Option String := none
  marketType : Option MarketType := none
  market : Option String := none
  segment : Option Segment := none
  businessType : Option BusinessType := none
  headcountName : Option String := none
  headcountRole : Option String := none
  headcountEmail : Option String := none
  if_active : Option Bool := none
  createdBy : Option Nat := none
deriving DecidableEq, Repr

/-- insertClientSchema.parse. -/
def parseInsertClient (b : RawClientBody) : Except String InsertClient :=
  match b.firstName, b.lastName, b.email, b.phone with
  | none, _, _, _ => .error "Validation error: Required at \"firstName\""
  | some _, none, _, _ => .error "Validation error: Required at \"lastName\""
  | some _, some _, none, _ => .error "Validation error: Required at \"email\""
  | some _, some _, some _, none => .error "Validation error: Required at \"phone\""
  | some fn, some ln, some em, some ph =>
    .ok { firstName := fn, lastName := ln, email := em, phone := ph
          marketType := b.marketType, market := b.market, segment := b.segment
          businessType := b.businessType, headcountName := b.headcountName
          headcountRole := b.headcountRole, headcountEmail := b.headcountEmail
          if_active := b.if_active, createdBy := b.createdBy }

/-- Raw JSON body of POST /api/clients/:clientId/interactions; the route
overrides clientId and createdBy before parsing. -/
structure RawInteractionBody where
  type : Option InteractionType := none
  title : Option String := none
  description : Option String := none
  date : Option Nat := none
deriving DecidableEq, Repr

/-- insertInteractionSchema.parse on {...body, clientId, createdBy}. -/
def parseInsertInteraction (b : RawInteractionBody) (clientId : Nat) (createdBy : Option Nat) :
    Except String InsertInteraction :=
  match b.type, b.title, b.description, b.date with
  | none, _, _, _ => .error "Validation error: Required at \"type\""
  | some _, none, _, _ => .error "Validation error: Required at \"title\""
  | some _, some _, none, _ => .error "Validation error: Required at \"description\""
  | some _, some _, some _, none => .error "Validation error: Invalid date at \"date\""
  | some ty, some ti, some de, some da =>
    .ok { clientId := clientId, type := ty, title := ti, description := de
          date := da, createdBy := createdBy }

/-! ## Route handlers (registerRoutes).
The handlers below model the authenticated routes after the requireAuth
or requireAdmin guard has admitted the request, so the session user is
available. `auditOk` models whether the audit-log insert succeeds; when
it fails the thrown error reaches the route's catch, which either
answers 500 directly or forwards to the boundary error handler (also a
500 answer). -/

/-- The session identity {id, username, role} carried by req.user. -/
structure SessionUser where
  id : Nat
  username : String
  role : String
deriving DecidableEq, Repr

/-- Admin as serialized by the admin routes: password destructured away. -/
structure AdminPublic where
  id : Nat
  username : String
  fullName : String
  email : String
  role : String
  active : Bool
  lastLogin : Option Nat
  createdAt : Nat
deriving DecidableEq, Repr

/-- The `{ password, ...sanitizedAdmin }` destructuring. -/
def sanitizeAdmin (a : Admin) : AdminPublic :=
  { id := a.id, username := a.username, fullName := a.fullName, email := a.email
    role := a.role, active := a.active, lastLogin := a.lastLogin, createdAt := a.createdAt }

/-- An HTTP response: a success JSON answer or an error status+message. -/
inductive RouteResult (α : Type) where
  | ok (status : Nat) (body : α)
  | err (status : Nat) (message : String)
deriving DecidableEq, Repr

/-- True on the success constructor. -/
def RouteResult.isOk {α : Type} : RouteResult α → Bool
  | .ok _ _ => true
  | .err _ _ => false

/-- Message of the storage error thrown when the audit insert fails. -/
def auditFailureMessage : String := "audit log insert failed"

/-- The createAuditLog helper in registerRoutes: writes one audit row,
but only when req.user is present; a storage failure surfaces as an
exception (modelled by the Except error). -/
def routeCreateAuditLog (auditOk : Bool) (user : Option SessionUser) (s : Storage)
    (entityType : String) (entityId : Nat) (action details : String) (now : Nat) :
    Except String Storage :=
  match user with
  | none => .ok s
  | some u =>
    if auditOk then
      .ok (createAuditLog s
        { adminId := some u.id, entityType := entityType, entityId := entityId
          action := action, details := details } now).2
    else
      .error auditFailureMessage

/-- POST /api/admins (behind requireAdmin): parse, create, audit, 201. -/
def postAdminsRoute (hash : String → String) (auditOk : Bool) (user : SessionUser)
    (s : Storage) (body : RawAdminBody) (now : Nat) : RouteResult AdminPublic × Storage :=
  match parseInsertAdmin body with
  | .error m => (.err 400 m, s)
  | .ok ia =>
    match createAdmin hash s ia now with
    | .error e => (.err 500 e, s)
    | .ok (admin, s1) =>
      match routeCreateAuditLog auditOk (some user) s1 "admin" admin.id "create"
          ("Admin " ++ admin.username ++ " created") now with
      | .ok s2 => (.ok 201 (sanitizeAdmin admin), s2)
      | .error e => (.err 500 e, s1)

/-- PUT /api/admins/:id (behind requireAdmin): no validation of the
partial body; update, 404 when the row is missing, audit, 200. -/
def putAdminsRoute (hash : String → String) (auditOk : Bool) (user : SessionUser)
    (s : Storage) (id : Nat) (body : AdminPatch) (now : Nat) : RouteResult AdminPublic × Storage :=
  let r := updateAdmin hash s id body
  match r.1 with
  | none => (.err 404 "Admin not found", r.2)
  | some a =>
    match routeCreateAuditLog auditOk (some user) r.2 "admin" id "update"
        ("Admin " ++ a.username ++ " updated") now with
    | .ok s2 => (.ok 200 (sanitizeAdmin a), s2)
    | .error e => (.err 500 e, r.2)

/-- POST /api/clients (behind requireAuth): parse, stamp createdBy from
the session, create, audit, 201. The catch answers 400 on a ZodError and
otherwise 500 with the underlying error message. -/
def postClientsRoute (auditOk : Bool) (user : SessionUser) (s : Storage)
    (body : RawClientBody) (now : Nat) : RouteResult Client × Storage :=
  match parseInsertClient body with
  | .error m => (.err 400 m, s)
  | .ok ic0 =>
    let ic := { ic0 with createdBy := some user.id }
    let r := createClient s ic now
    match routeCreateAuditLog auditOk (some user) r.2 "client" r.1.id "create"
        ("Client " ++ r.1.firstName ++ " " ++ r.1.lastName ++ " created") now with
    | .ok s2 => (.ok 201 r.1, s2)
    | .error e => (.err 500 e, r.2)

/-- PUT /api/clients/:id (behind requireAuth): look up the client (404 if
absent), apply the unvalidated partial body, audit, answer the updated
row. -/
def putClientsRoute (auditOk : Bool) (user : SessionUser) (s : Storage)
    (id : Nat) (body : ClientPatch) (now : Nat) : RouteResult (Option Client) × Storage :=
  match getClient s id with
  | none => (.err 404 "Client not found", s)
  | some existing =>
    let r := updateClient s id body now
    match routeCreateAuditLog auditOk (some user) r.2 "client" id "update"
        ("Client " ++ existing.firstName ++ " " ++ existing.lastName ++ " updated") now with
    | .ok s2 => (.ok 200 r.1, s2)
    | .error e => (.err 500 e, r.2)

/-- DELETE /api/clients/:id (behind requireAuth): look up (404 if
absent), delete, audit on success, 200 with a message; a false delete
result answers 500. -/
def deleteClientsRoute (auditOk : Bool) (user : SessionUser) (s : Storage)
    (id : Nat) (now : Nat) : RouteResult String × Storage :=
  match getClient s id with
  | none => (.err 404 "Client not found", s)
  | some client =>
    let r := deleteClient s id
    if r.1 then
      match routeCreateAuditLog auditOk (some user) r.2 "client" id "delete"
          ("Client " ++ client.firstName ++ " " ++ client.lastName ++ " deleted") now with
      | .ok s2 => (.ok 200 "Client deleted successfully", s2)
      | .error e => (.err 500 e, r.2)
    else
      (.err 500 "Failed to delete client", r.2)

/-- POST /api/clients/:clientId/interactions (behind requireAuth): check
the client exists (404), parse {...body, clientId, createdBy}, create,
audit, 201. -/
def postInteractionsRoute (auditOk : Bool) (user : SessionUser) (s : Storage)
    (clientId : Nat) (body : RawInteractionBody) (now : Nat) :
    RouteResult Interaction × Storage :=
  match getClient s clientId with
  | none => (.err 404 "Client not found", s)
  | some client =>
    match parseInsertInteraction body clientId (some user.id) with
    | .error m => (.err 400 m, s)
    | .ok ii =>
      let r := createInteraction s ii now
      match routeCreateAuditLog auditOk (some user) r.2 "interaction" r.1.id "create"
          ("Interaction created for client " ++ client.firstName ++ " " ++ client.lastName) now with
      | .ok s2 => (.ok 201 r.1, s2)
      | .error e => (.err 500 e, r.2)

/-- PUT /api/interactions/:id (behind requireAuth): look up (404 if
absent), apply the unvalidated partial body, audit, answer the updated
row. -/
def putInteractionsRoute (auditOk : Bool) (user : SessionUser) (s : Storage)
    (id : Nat) (body : InteractionPatch) (now : Nat) :
    RouteResult (Option Interaction) × Storage :=
  match getInteraction s id with
  | none => (.err 404 "Interaction not found", s)
  | some existing =>
    let r := updateInteraction s id body now
    match routeCreateAuditLog auditOk (some user) r.2 "interaction" id "update"
        ("Interaction " ++ existing.title ++ " updated") now with
    | .ok s2 => (.ok 200 r.1, s2)
    | .error e => (.err 500 e, r.2)

/-- DELETE /api/interactions/:id (behind requireAuth): look up (404 if
absent), delete, audit on success, 200 with a message. -/
def deleteInteractionsRoute (auditOk : Bool) (user : SessionUser) (s : Storage)
    (id : Nat) (now : Nat) : RouteResult String × Storage :=
  match getInteraction s id with
  | none => (.err 404 "Interaction not found", s)
  | some interaction =>
    let r := deleteInteraction s id
    if r.1 then
      match routeCreateAuditLog auditOk (some user) r.2 "interaction" id "delete"
          ("Interaction " ++ interaction.title ++ " deleted") now with
      | .ok s2 => (.ok 200 "Interaction deleted successfully", s2)
      | .error e => (.err 500 e, r.2)
    else
      (.err 500 "Failed to delete interaction", r.2)

/-- GET /api/clients/:clientId/audit-logs (behind requireAuth): the
client must exist (404 otherwise); only then are the client's audit rows
returned. No state is mutated. -/
def getClientAuditLogsRoute (s : Storage) (clientId : Nat) : RouteResult (List AuditLog) :=
  match getClient s clientId with
  | none => .err 404 "Client not found"
  | some _ => .ok 200 (getClientAuditLogs s clientId)

/-! ## Authentication -/

/-- Outcome of the passport LocalStrategy verify callback. -/
inductive AuthOutcome where
  | authed (u : SessionUser)
  | denied (message : String)
deriving DecidableEq, Repr

/-- The LocalStrategy verify callback: look up by username; missing user
and password mismatch share the message 'Invalid username or password',
but an inactive account answers 'Account is disabled'; on success the
last login time is recorded and {id, username, role} is the session
identity. -/
def localStrategyVerify (checkPw : String → String → Bool) (s : Storage)
    (username password : String) (now : Nat) : AuthOutcome × Storage :=
  match getAdminByUsername s username with
  | none => (.denied "Invalid username or password", s)
  | some admin =>
    if !admin.active then
      (.denied "Account is disabled", s)
    else if !(validatePassword checkPw password admin.password) then
      (.denied "Invalid username or password", s)
    else
      (.authed { id := admin.id, username := admin.username, role := admin.role },
       updateLastLogin s admin.id now)

/-- POST /api/auth/login: loginSchema (username ≥ 3 chars, password ≥ 6
chars) then passport.authenticate; a denied outcome answers 401 with the
strategy's message. -/
def loginRoute (checkPw : String → String → Bool) (s : Storage)
    (username password : String) (now : Nat) : RouteResult SessionUser × Storage :=
  if username.length < 3 || password.length < 6 then
    (.err 400 "Validation error at login", s)
  else
    match localStrategyVerify checkPw s username password now with
    | (.denied m, s') => (.err 401 m, s')
    | (.authed u, s') => (.ok 200 u, s')

/-- The bootstrap seeder at the end of registerRoutes: if no admins
exist, create the default 'admin'/'admin123' administrator; errors are
logged and swallowed. No audit row is written. -/
def seedDefaultAdmin (hash : String → String) (s : Storage) (now : Nat) : Storage :=
  if (listAdmins s).length == 0 then
    match createAdmin hash s
        { username := "admin", password := "admin123"
          fullName := "System Administrator", email := "admin@travelcrm.com"
          role := some "admin", active := some true } now with
    | .ok r => r.2
    | .error _ => s
  else
    s

/-! ## Shared fixtures for concrete witnesses -/

/-- A concrete stand-in for bcrypt.hash: injective and never the identity
on its input (bcrypt outputs start with a dollar-prefixed format tag). -/
def demoHash (plain : String) : String := "2b10" ++ plain

/-- A concrete stand-in for bcrypt.compare consistent with demoHash. -/
def demoCheckPw (plain hashed : String) : Bool := hashed == demoHash plain

/-- A concrete authenticated session user. -/
def demoUser : SessionUser := { id := 1, username := "sysop", role := "admin" }

/-- A concrete client row. -/
def clientOne : Client :=
  { id := 1, firstName := "John", lastName := "Smith", email := "jsmith@x.com", phone := "555-0101"
    marketType := .localMarket, market := none, segment := none, businessType := none
    headcountName := none, headcountRole := none, headcountEmail := none
    if_active := some true, createdAt := 0, updatedAt := 0, createdBy := some 1 }

/-- A second concrete client row. -/
def clientTwo : Client :=
  { id := 2, firstName := "Mary", lastName := "Jones", email := "mj@y.com", phone := "555-0102"
    marketType := .oversea, market := some "EU", segment := some .FIT, businessType := none
    headcountName := none, headcountRole := none, headcountEmail := none
    if_active := some true, createdAt := 0, updatedAt := 0, createdBy := some 1 }

/-- An interaction of clientOne. -/
def interOne : Interaction :=
  { id := 1, clientId := 1, type := .call, title := "Intro call", description := "first contact"
    date := 2, createdAt := 2, updatedAt := 2, createdBy := some 1 }

/-- An interaction of clientTwo. -/
def interTwo : Interaction :=
  { id := 2, clientId := 2, type := .email, title := "Quote", description := "sent quote"
    date := 3, createdAt := 3, updatedAt := 3, createdBy := some 1 }

/-- A store holding both clients and one interaction each. -/
def storeTwoClients : Storage :=
  { emptyStorage with
    clients := [clientOne, clientTwo], interactions := [interOne, interTwo]
    nextClientId := 3, nextInteractionId := 3 }

/-! ## Helper lemmas -/

theorem insertByStr_length {α : Type} (key : α → String) (a : α) (l : List α) :
    (insertByStr key a l).length = l.length + 1 := by
  induction l with
  | nil => rfl
  | cons b bs ih =>
    rw [insertByStr]
    split
    · rfl
    · simp [ih]

theorem sortByStr_length {α : Type} (key : α → String) (l : List α) :
    (sortByStr key l).length = l.length := by
  induction l with
  | nil => rfl
  | cons a rest ih => rw [sortByStr, insertByStr_length, ih, List.length_cons]

theorem listAdmins_length (s : Storage) : (listAdmins s).length = s.admins.length :=
  sortByStr_length _ _

/-! ## Claim C9 -/

/-- Claim C9: running the bootstrap seeder on a store with zero Admin
rows creates exactly one administrator with role=admin; running it again
on any store that already contains at least one Admin row creates zero
additional Admins (seed after seed equals seed). -/
theorem c9_bootstrap_seeder_idempotent (hash : String → String) (s : Storage) (now now2 : Nat) :
    (s.admins = [] →
      ((seedDefaultAdmin hash s now).admins.length = 1 ∧
       (∀ a ∈ (seedDefaultAdmin hash s now).admins, a.role = "admin") ∧
       seedDefaultAdmin hash (seedDefaultAdmin hash s now) now2 = seedDefaultAdmin hash s now)) ∧
    (s.admins ≠ [] → seedDefaultAdmin hash s now2 = s) := by
  constructor
  · intro h
    have hlen : ((listAdmins s).length == 0) = true := by
      simp [listAdmins_length, h]
    have hseed : seedDefaultAdmin hash s now =
        { s with
          admins := s.admins ++
            [{ id := s.nextAdminId, username := "admin", password := hash "admin123"
               fullName := "System Administrator", email := "admin@travelcrm.com"
               role := "admin", active := true, lastLogin := none, createdAt := now }]
          nextAdminId := s.nextAdminId + 1 } := by
      rw [seedDefaultAdmin, if_pos hlen, createAdmin]
      rw [if_neg (by simp [h])]
      rfl
    refine ⟨?_, ?_, ?_⟩
    · rw [hseed]
      simp [h]
    · rw [hseed]
      intro a ha
      simp [h] at ha
      rw [ha]
    · rw [hseed]
      rw [seedDefaultAdmin, if_neg ?_]
      simp [listAdmins_length, h]
  · intro h
    rw [seedDefaultAdmin, if_neg ?_]
    simp [listAdmins_length, h]

/-- Witness for C9 at the empty store. -/
theorem c9_witness :
    emptyStorage.admins = [] ∧
    ((seedDefaultAdmin demoHash emptyStorage 0).admins.length = 1 ∧
     (∀ a ∈ (seedDefaultAdmin demoHash emptyStorage 0).admins, a.role = "admin") ∧
     seedDefaultAdmin demoHash (seedDefaultAdmin demoHash emptyStorage 0) 1 =
       seedDefaultAdmin demoHash emptyStorage 0) :=
  ⟨rfl, (c9_bootstrap_seeder_idempotent demoHash emptyStorage 0 1).1 rfl⟩

/-! ## Claim C4 -/

/-- Claim C4: for every existing Client id, deleteClient removes the
Client row and every Interaction referencing it atomically; afterwards
listInteractionsByClient returns the empty sequence and getClient
returns NotFound. -/
theorem c4_deleteClient_cascade (s : Storage) (id : Nat) (c : Client)
    (h : getClient s id = some c) :
    (deleteClient s id).1 = true ∧
    getClient (deleteClient s id).2 id = none ∧
    listInteractionsByClient (deleteClient s id).2 id = [] := by
  rw [getClient] at h
  have hmem : c ∈ s.clients := List.mem_of_find?_eq_some h
  have hid : (c.id == id) = true := by
    have := List.find?_some h
    exact this
  refine ⟨?_, ?_, ?_⟩
  · rw [deleteClient]
    exact List.any_eq_true.mpr ⟨c, hmem, hid⟩
  · rw [deleteClient, getClient]
    simp only []
    rw [List.find?_eq_none]
    intro x hx
    have hx2 := (List.mem_filter.mp hx).2
    simp only [Bool.not_eq_eq_eq_not, Bool.not_true] at hx2
    simp [hx2]
  · rw [deleteClient, listInteractionsByClient]
    simp only []
    have hfil : ((s.interactions.filter (fun i => !(i.clientId == id))).filter
        (fun i => i.clientId == id)) = [] := by
      rw [List.filter_eq_nil_iff]
      intro a ha
      have := (List.mem_filter.mp ha).2
      simp only [Bool.not_eq_eq_eq_not, Bool.not_true] at this
      simp [this]
    rw [hfil]
    rfl

/-- Witness for C4: deleting clientOne from the two-client store. -/
theorem c4_witness :
    getClient storeTwoClients 1 = some clientOne ∧
    ((deleteClient storeTwoClients 1).1 = true ∧
     getClient (deleteClient storeTwoClients 1).2 1 = none ∧
     listInteractionsByClient (deleteClient storeTwoClients 1).2 1 = []) :=
  ⟨by decide, c4_deleteClient_cascade storeTwoClients 1 clientOne (by decide)⟩

/-! ## Claim C10 -/

/-- Claim C10: for a client id with no Client row, the per-client audit
endpoint answers NotFound and never returns audit rows, even when audit
rows for that id exist; the audit trail of a deleted client is
unreachable through this endpoint. -/
theorem c10_deleted_client_audit_unreachable (s : Storage) (cid : Nat)
    (h : getClient s cid = none) :
    getClientAuditLogsRoute s cid = .err 404 "Client not found" ∧
    ∀ logs, getClientAuditLogsRoute s cid ≠ .ok 200 logs := by
  rw [getClientAuditLogsRoute, h]
  exact ⟨rfl, fun logs hc => by cases hc⟩

/-- A store whose client 1 is gone but whose audit trail still holds the
client's create and delete records. -/
def storeDeletedClient : Storage :=
  { emptyStorage with
    auditLogs :=
      [{ id := 1, adminId := some 1, entityType := "client", entityId := 1
         action := "create", details := "Client John Smith created", createdAt := 1 },
       { id := 2, adminId := some 1, entityType := "client", entityId := 1
         action := "delete", details := "Client John Smith deleted", createdAt := 2 }]
    nextAuditLogId := 3 }

/-- Witness for C10: audit rows for client 1 exist, the client does not,
and the endpoint answers 404. -/
theorem c10_witness :
    getClient storeDeletedClient 1 = none ∧
    storeDeletedClient.auditLogs.filter
      (fun l => l.entityType == "client" && l.entityId == 1) ≠ [] ∧
    (getClientAuditLogsRoute storeDeletedClient 1 = .err 404 "Client not found" ∧
     ∀ logs, getClientAuditLogsRoute storeDeletedClient 1 ≠ .ok 200 logs) :=
  ⟨by decide, by decide, c10_deleted_client_audit_unreachable storeDeletedClient 1 (by decide)⟩

/-! ## Claim C6 -/

/-- Claim C6: for every existing entity id and partial input, updateClient
and updateInteraction mutate exactly the fields present in the input plus
updatedAt (always refreshed to the update time); every absent field keeps
its pre-update value. -/
theorem c6_partial_update_frame :
    (∀ (s : Storage) (id : Nat) (p : ClientPatch) (now : Nat) (c : Client),
      getClient s id = some c →
      ∃ c', (updateClient s id p now).1 = some c' ∧
        c'.updatedAt = now ∧
        (p.firstName = none → c'.firstName = c.firstName) ∧
        (∀ v, p.firstName = some v → c'.firstName = v) ∧
        (p.lastName = none → c'.lastName = c.lastName) ∧
        (∀ v, p.lastName = some v → c'.lastName = v) ∧
        (p.email = none → c'.email = c.email) ∧
        (∀ v, p.email = some v → c'.email = v) ∧
        (p.phone = none → c'.phone = c.phone) ∧
        (∀ v, p.phone = some v → c'.phone = v) ∧
        (p.marketType = none → c'.marketType = c.marketType) ∧
        (∀ v, p.marketType = some v → c'.marketType = v) ∧
        (p.market = none → c'.market = c.market) ∧
        (∀ v, p.market = some v → c'.market = v) ∧
        (p.segment = none → c'.segment = c.segment) ∧
        (∀ v, p.segment = some v → c'.segment = v) ∧
        (p.businessType = none → c'.businessType = c.businessType) ∧
        (∀ v, p.businessType = some v → c'.businessType = v) ∧
        (p.headcountName = none → c'.headcountName = c.headcountName) ∧
        (∀ v, p.headcountName = some v → c'.headcountName = v) ∧
        (p.headcountRole = none → c'.headcountRole = c.headcountRole) ∧
        (∀ v, p.headcountRole = some v → c'.headcountRole = v) ∧
        (p.headcountEmail = none → c'.headcountEmail = c.headcountEmail) ∧
        (∀ v, p.headcountEmail = some v → c'.headcountEmail = v) ∧
        (p.if_active = none → c'.if_active = c.if_active) ∧
        (∀ v, p.if_active = some v → c'.if_active = v) ∧
        (p.createdAt = none → c'.createdAt = c.createdAt) ∧
        (∀ v, p.createdAt = some v → c'.createdAt = v) ∧
        (p.createdBy = none → c'.createdBy = c.createdBy) ∧
        (∀ v, p.createdBy = some v → c'.createdBy = v) ∧
        (p.id = none → c'.id = c.id) ∧
        (∀ v, p.id = some v → c'.id = v)) ∧
    (∀ (s : Storage) (id : Nat) (p : InteractionPatch) (now : Nat) (i : Interaction),
      getInteraction s id = some i →
      ∃ i', (updateInteraction s id p now).1 = some i' ∧
        i'.updatedAt = now ∧
        (p.clientId = none → i'.clientId = i.clientId) ∧
        (∀ v, p.clientId = some v → i'.clientId = v) ∧
        (p.type = none → i'.type = i.type) ∧
        (∀ v, p.type = some v → i'.type = v) ∧
        (p.title = none → i'.title = i.title) ∧
        (∀ v, p.title = some v → i'.title = v) ∧
        (p.description = none → i'.description = i.description) ∧
        (∀ v, p.description = some v → i'.description = v) ∧
        (p.date = none → i'.date = i.date) ∧
        (∀ v, p.date = some v → i'.date = v) ∧
        (p.createdAt = none → i'.createdAt = i.createdAt) ∧
        (∀ v, p.createdAt = some v → i'.createdAt = v) ∧
        (p.createdBy = none → i'.createdBy = i.createdBy) ∧
        (∀ v, p.createdBy = some v → i'.createdBy = v) ∧
        (p.id = none → i'.id = i.id) ∧
        (∀ v, p.id = some v → i'.id = v)) := by
  constructor
  · intro s id p now c h
    rw [getClient] at h
    rw [updateClient, h]
    refine ⟨applyClientPatch c p now, rfl, rfl, ?_⟩
    repeat' constructor
    all_goals
      first
      | intro hf
        simp [applyClientPatch, hf]
      | intro v hf
        simp [applyClientPatch, hf]
  · intro s id p now i h
    rw [getInteraction] at h
    rw [updateInteraction, h]
    refine ⟨applyInteractionPatch i p now, rfl, rfl, ?_⟩
    repeat' constructor
    all_goals
      first
      | intro hf
        simp [applyInteractionPatch, hf]
      | intro v hf
        simp [applyInteractionPatch, hf]

/-- Witness for C6: the spec's example, updating only the email of
clientOne; instantiated at id 1 in the two-client store. -/
theorem c6_witness :
    getClient storeTwoClients 1 = some clientOne ∧
    ∃ c', (updateClient storeTwoClients 1 { email := some "x@y.com" } 9).1 = some c' ∧
      c'.updatedAt = 9 ∧
      (({ email := some "x@y.com" } : ClientPatch).firstName = none →
        c'.firstName = clientOne.firstName) ∧
      (∀ v, ({ email := some "x@y.com" } : ClientPatch).firstName = some v → c'.firstName = v) ∧
      (({ email := some "x@y.com" } : ClientPatch).lastName = none →
        c'.lastName = clientOne.lastName) ∧
      (∀ v, ({ email := some "x@y.com" } : ClientPatch).lastName = some v → c'.lastName = v) ∧
      (({ email := some "x@y.com" } : ClientPatch).email = none → c'.email = clientOne.email) ∧
      (∀ v, ({ email := some "x@y.com" } : ClientPatch).email = some v → c'.email = v) ∧
      (({ email := some "x@y.com" } : ClientPatch).phone = none → c'.phone = clientOne.phone) ∧
      (∀ v, ({ email := some "x@y.com" } : ClientPatch).phone = some v → c'.phone = v) ∧
      (({ email := some "x@y.com" } : ClientPatch).marketType = none →
        c'.marketType = clientOne.marketType) ∧
      (∀ v, ({ email := some "x@y.com" } : ClientPatch).marketType = some v →
        c'.marketType = v) ∧
      (({ email := some "x@y.com" } : ClientPatch).market = none → c'.market = clientOne.market) ∧
      (∀ v, ({ email := some "x@y.com" } : ClientPatch).market = some v → c'.market = v) ∧
      (({ email := some "x@y.com" } : ClientPatch).segment = none →
        c'.segment = clientOne.segment) ∧
      (∀ v, ({ email := some "x@y.com" } : ClientPatch).segment = some v → c'.segment = v) ∧
      (({ email := some "x@y.com" } : ClientPatch).businessType = none →
        c'.businessType = clientOne.businessType) ∧
      (∀ v, ({ email := some "x@y.com" } : ClientPatch).businessType = some v →
        c'.businessType = v) ∧
      (({ email := some "x@y.com" } : ClientPatch).headcountName = none →
        c'.headcountName = clientOne.headcountName) ∧
      (∀ v, ({ email := some "x@y.com" } : ClientPatch).headcountName = some v →
        c'.headcountName = v) ∧
      (({ email := some "x@y.com" } : ClientPatch).headcountRole = none →
        c'.headcountRole = clientOne.headcountRole) ∧
      (∀ v, ({ email := some "x@y.com" } : ClientPatch).headcountRole = some v →
        c'.headcountRole = v) ∧
      (({ email := some "x@y.com" } : ClientPatch).headcountEmail = none →
        c'.headcountEmail = clientOne.headcountEmail) ∧
      (∀ v, ({ email := some "x@y.com" } : ClientPatch).headcountEmail = some v →
        c'.headcountEmail = v) ∧
      (({ email := some "x@y.com" } : ClientPatch).if_active = none →
        c'.if_active = clientOne.if_active) ∧
      (∀ v, ({ email := some "x@y.com" } : ClientPatch).if_active = some v →
        c'.if_active = v) ∧
      (({ email := some "x@y.com" } : ClientPatch).createdAt = none →
        c'.createdAt = clientOne.createdAt) ∧
      (∀ v, ({ email := some "x@y.com" } : ClientPatch).createdAt = some v →
        c'.createdAt = v) ∧
      (({ email := some "x@y.com" } : ClientPatch).createdBy = none →
        c'.createdBy = clientOne.createdBy) ∧
      (∀ v, ({ email := some "x@y.com" } : ClientPatch).createdBy = some v →
        c'.createdBy = v) ∧
      (({ email := some "x@y.com" } : ClientPatch).id = none → c'.id = clientOne.id) ∧
      (∀ v, ({ email := some "x@y.com" } : ClientPatch).id = some v → c'.id = v) :=
  ⟨by decide,
   c6_partial_update_frame.1 storeTwoClients 1 { email := some "x@y.com" } 9 clientOne (by decide)⟩

/-! ## Claim C2 -/

/-- An inactive admin account. -/
def adminBob : Admin :=
  { id := 1, username := "bob", password := demoHash "pw123456", fullName := "Bob B"
    email := "bob@x.com", role := "user", active := false, lastLogin := none, createdAt := 0 }

/-- Store holding only the inactive adminBob. -/
def storeInactiveBob : Storage := { emptyStorage with admins := [adminBob], nextAdminId := 2 }

/-- Counterexample to C2 as stated: two failing login runs that differ
only in the cause (absent username vs. inactive account) produce
different 401 bodies, so the causes are distinguishable. -/
theorem c2_counterexample :
    (loginRoute demoCheckPw storeInactiveBob "alicex" "pw123456" 9).1 =
      .err 401 "Invalid username or password" ∧
    (loginRoute demoCheckPw storeInactiveBob "bob" "pw123456" 9).1 =
      .err 401 "Account is disabled" ∧
    ("Invalid username or password" : String) ≠ "Account is disabled" := by
  refine ⟨by decide, by decide, by decide⟩

/-- Claim C2 amended: absent-username and password-mismatch failures are
indistinguishable (both yield the generic message), but an inactive
account yields the distinct message 'Account is disabled'. -/
theorem c2_amended_login_failure_messages (checkPw : String → String → Bool) (s : Storage)
    (username password : String) (now : Nat) :
    (getAdminByUsername s username = none →
      (localStrategyVerify checkPw s username password now).1 =
        .denied "Invalid username or password") ∧
    (∀ a, getAdminByUsername s username = some a → a.active = true →
      checkPw password a.password = false →
      (localStrategyVerify checkPw s username password now).1 =
        .denied "Invalid username or password") ∧
    (∀ a, getAdminByUsername s username = some a → a.active = false →
      (localStrategyVerify checkPw s username password now).1 =
        .denied "Account is disabled") := by
  refine ⟨?_, ?_, ?_⟩
  · intro h
    simp [localStrategyVerify, h]
  · intro a h ha hpw
    simp [localStrategyVerify, h, ha, validatePassword, hpw]
  · intro a h ha
    simp [localStrategyVerify, h, ha]

/-- An active admin account. -/
def adminCarol : Admin :=
  { id := 2, username := "carol", password := demoHash "goodpw99", fullName := "Carol C"
    email := "carol@x.com", role := "admin", active := true, lastLogin := none, createdAt := 0 }

/-- Store holding only the active adminCarol. -/
def storeActiveCarol : Storage := { emptyStorage with admins := [adminCarol], nextAdminId := 3 }

/-- Witness for C2 amended: an absent username and a wrong password
against an active account both yield the generic denial. -/
theorem c2_witness :
    (getAdminByUsername storeActiveCarol "nobody" = none ∧
     (localStrategyVerify demoCheckPw storeActiveCarol "nobody" "badpass1" 5).1 =
       .denied "Invalid username or password") ∧
    (getAdminByUsername storeActiveCarol "carol" = some adminCarol ∧
     adminCarol.active = true ∧
     demoCheckPw "badpass1" adminCarol.password = false ∧
     (localStrategyVerify demoCheckPw storeActiveCarol "carol" "badpass1" 5).1 =
       .denied "Invalid username or password") :=
  ⟨⟨by decide,
    (c2_amended_login_failure_messages demoCheckPw storeActiveCarol "nobody" "badpass1" 5).1
      (by decide)⟩,
   ⟨by decide, by decide, by decide,
    (c2_amended_login_failure_messages demoCheckPw storeActiveCarol "carol" "badpass1" 5).2.1
      adminCarol (by decide) (by decide) (by decide)⟩⟩

/-! ## Claim C7 -/

/-- An active admin used for password-update scenarios. -/
def adminDave : Admin :=
  { id := 1, username := "dave", password := demoHash "origpw", fullName := "Dave D"
    email := "dave@x.com", role := "user", active := true, lastLogin := none, createdAt := 0 }

/-- Store holding only adminDave. -/
def storeDave : Storage := { emptyStorage with admins := [adminDave], nextAdminId := 2 }

/-- Counterexample to C7 as stated: an updateAdmin input whose partial
contains the password field with the empty string persists the supplied
plaintext verbatim (the truthiness guard skips hashing), and the hash of
the empty string is not the empty string. -/
theorem c7_counterexample :
    ((updateAdmin demoHash storeDave 1 { password := some "" }).1.map
      (fun a => a.password)) = some "" ∧
    demoHash "" ≠ "" ∧
    ((updateAdmin demoHash storeDave 1 { password := some "" }).2.admins.map
      (fun a => a.password)) = [""] := by
  refine ⟨by decide, by decide, by decide⟩

/-- Claim C7 amended: createAdmin always persists the hash of the
supplied plaintext, and updateAdmin hashes any present non-empty
password; but a present empty-string password is persisted verbatim
(unhashed). -/
theorem c7_amended_passwords_hashed (hash : String → String) (s : Storage) :
    (∀ ia now a s', createAdmin hash s ia now = .ok (a, s') →
      a.password = hash ia.password ∧ s'.admins = s.admins ++ [a]) ∧
    (∀ id p pw, p.password = some pw → pw ≠ "" →
      ∀ a, (updateAdmin hash s id p).1 = some a → a.password = hash pw) ∧
    (∀ id p a0, p.password = some "" → getAdmin s id = some a0 →
      ((updateAdmin hash s id p).1.map (fun a => a.password)) = some "") := by
  refine ⟨?_, ?_, ?_⟩
  · intro ia now a s' h
    rw [createAdmin] at h
    split at h
    · cases h
    · cases h
      exact ⟨rfl, rfl⟩
  · intro id p pw hpw hne a h
    rw [updateAdmin, hpw] at h
    rcases hf : s.admins.find? (fun x => x.id == id) with _ | a0 <;> rw [hf] at h
    · cases h
    · simp only [Option.some.injEq] at h
      rw [← h]
      simp [applyAdminPatch, hne]
  · intro id p a0 hpw hget
    rw [getAdmin] at hget
    rw [updateAdmin, hpw, hget]
    simp [applyAdminPatch, hpw]

/-- Witness for C7 amended: creating an admin persists the hash of the
supplied plaintext, and updating dave's password with a non-empty
plaintext persists its hash. -/
theorem c7_witness :
    (∃ a s', createAdmin demoHash storeDave
        { username := "erin", password := "freshpw1", fullName := "Erin E"
          email := "erin@x.com", role := none, active := none } 4 = .ok (a, s') ∧
      a.password = demoHash "freshpw1" ∧ s'.admins = storeDave.admins ++ [a]) ∧
    (({ password := some "newpw123" } : AdminPatch).password = some "newpw123" ∧
     ("newpw123" : String) ≠ "" ∧
     ∀ a, (updateAdmin demoHash storeDave 1 { password := some "newpw123" }).1 = some a →
       a.password = demoHash "newpw123") := by
  constructor
  · refine ⟨_, _, rfl, ?_⟩
    exact (c7_amended_passwords_hashed demoHash storeDave).1
      { username := "erin", password := "freshpw1", fullName := "Erin E"
        email := "erin@x.com", role := none, active := none } 4 _ _ rfl
  · refine ⟨rfl, by decide, ?_⟩
    intro a h
    exact (c7_amended_passwords_hashed demoHash storeDave).2.1 1
      { password := some "newpw123" } "newpw123" rfl (by decide) a h

/-! ## Claim C5 -/

/-- A create body whose email contains no at sign. -/
def rawBadEmail : RawClientBody :=
  { firstName := some "Ann", lastName := some "Lee", email := some "not-an-email"
    phone := some "123" }

/-- Counterexample to C5 as stated: a malformed email is not rejected.
The create route persists it (the derived zod schema has no email-format
check), and the update route persists a malformed email with no
validation at all. -/
theorem c5_counterexample :
    (postClientsRoute true demoUser emptyStorage rawBadEmail 3).1.isOk = true ∧
    ((postClientsRoute true demoUser emptyStorage rawBadEmail 3).2.clients.map
      (fun c => c.email)) = ["not-an-email"] ∧
    (∀ ch ∈ ("not-an-email" : String).data, ch ≠ '@') ∧
    (putClientsRoute true demoUser storeTwoClients 1 { email := some "no-at-sign" } 6).1.isOk
      = true ∧
    ((getClient (putClientsRoute true demoUser storeTwoClients 1
        { email := some "no-at-sign" } 6).2 1).map (fun c => c.email)) = some "no-at-sign" ∧
    (∀ ch ∈ ("no-at-sign" : String).data, ch ≠ '@') := by
  refine ⟨by decide, by decide, by decide, by decide, by decide, by decide⟩

/-- Claim C5 amended: the create routes validate the body against the
zod insert schema before persistence — a failed parse answers 400 with a
field-naming message and leaves the store untouched, and a missing
required field fails the parse — but email format is never checked, and
the update routes pass the partial body to persistence with no
validation, so any patch on an existing row succeeds. -/
theorem c5_amended_validation (hash : String → String) :
    (∀ (A : Bool) (u : SessionUser) (s : Storage) (b : RawClientBody) (now : Nat) (m : String),
      parseInsertClient b = .error m →
      postClientsRoute A u s b now = (.err 400 m, s)) ∧
    (∀ (A : Bool) (u : SessionUser) (s : Storage) (b : RawAdminBody) (now : Nat) (m : String),
      parseInsertAdmin b = .error m →
      postAdminsRoute hash A u s b now = (.err 400 m, s)) ∧
    (∀ (A : Bool) (u : SessionUser) (s : Storage) (cid : Nat) (b : RawInteractionBody)
       (now : Nat) (c : Client) (m : String),
      getClient s cid = some c →
      parseInsertInteraction b cid (some u.id) = .error m →
      postInteractionsRoute A u s cid b now = (.err 400 m, s)) ∧
    (∀ b : RawClientBody, b.firstName = none →
      parseInsertClient b = .error "Validation error: Required at \"firstName\"") ∧
    (∀ (u : SessionUser) (s : Storage) (id : Nat) (p : ClientPatch) (now : Nat) (c : Client),
      getClient s id = some c →
      (putClientsRoute true u s id p now).1.isOk = true) ∧
    (∀ (u : SessionUser) (s : Storage) (id : Nat) (p : AdminPatch) (now : Nat) (a : Admin),
      getAdmin s id = some a →
      (putAdminsRoute hash true u s id p now).1.isOk = true) ∧
    (∀ (u : SessionUser) (s : Storage) (id : Nat) (p : InteractionPatch) (now : Nat)
       (i : Interaction),
      getInteraction s id = some i →
      (putInteractionsRoute true u s id p now).1.isOk = true) := by
  refine ⟨?_, ?_, ?_, ?_, ?_, ?_, ?_⟩
  · intro A u s b now m h
    rw [postClientsRoute, h]
  · intro A u s b now m h
    rw [postAdminsRoute, h]
  · intro A u s cid b now c m hc hm
    rw [postInteractionsRoute, hc, hm]
  · intro b h
    rw [parseInsertClient, h]
  · intro u s id p now c h
    rw [getClient] at h
    rw [putClientsRoute, getClient, h, updateClient, h]
    simp [routeCreateAuditLog, RouteResult.isOk]
  · intro u s id p now a h
    rw [getAdmin] at h
    rw [putAdminsRoute, updateAdmin, h]
    simp [routeCreateAuditLog, RouteResult.isOk]
  · intro u s id p now i h
    rw [getInteraction] at h
    rw [putInteractionsRoute, getInteraction, h, updateInteraction, h]
    simp [routeCreateAuditLog, RouteResult.isOk]

/-- A create body missing the required firstName. -/
def rawMissingFirst : RawClientBody :=
  { lastName := some "Lee", email := some "lee@x.com", phone := some "123" }

/-- Witness for C5 amended: the missing firstName create is rejected
with a field-naming 400 and nothing is persisted; client and interaction
updates on existing rows succeed with no validation. -/
theorem c5_witness :
    (rawMissingFirst.firstName = none ∧
     parseInsertClient rawMissingFirst = .error "Validation error: Required at \"firstName\"" ∧
     postClientsRoute true demoUser emptyStorage rawMissingFirst 3 =
       (.err 400 "Validation error: Required at \"firstName\"", emptyStorage)) ∧
    (getClient storeTwoClients 2 = some clientTwo ∧
     (putClientsRoute true demoUser storeTwoClients 2 { phone := some "999" } 6).1.isOk
       = true) ∧
    (getInteraction storeTwoClients 1 = some interOne ∧
     (putInteractionsRoute true demoUser storeTwoClients 1 { description := some "" } 6).1.isOk
       = true) := by
  refine ⟨⟨rfl, ?_, ?_⟩, ⟨by decide, ?_⟩, by decide, ?_⟩
  · exact (c5_amended_validation demoHash).2.2.2.1 rawMissingFirst rfl
  · exact (c5_amended_validation demoHash).1 true demoUser emptyStorage rawMissingFirst 3
      "Validation error: Required at \"firstName\"" rfl
  · exact (c5_amended_validation demoHash).2.2.2.2.1 demoUser storeTwoClients 2
      { phone := some "999" } 6 clientTwo (by decide)
  · exact (c5_amended_validation demoHash).2.2.2.2.2.2 demoUser storeTwoClients 1
      { description := some "" } 6 interOne (by decide)

/-! ## Claim C3 -/

/-- Counterexample to C3 as stated: when the audit append fails after a
successful client update, the mutation stays committed (the new email is
in the final store) but the HTTP response is a 500 error — not the
success response that the same mutation produces when the audit write
succeeds. -/
theorem c3_counterexample :
    (putClientsRoute false demoUser storeTwoClients 1 { email := some "x@y.com" } 5).1 =
      .err 500 auditFailureMessage ∧
    ((getClient (putClientsRoute false demoUser storeTwoClients 1
        { email := some "x@y.com" } 5).2 1).map (fun c => c.email)) = some "x@y.com" ∧
    (putClientsRoute true demoUser storeTwoClients 1 { email := some "x@y.com" } 5).1.isOk
      = true := by
  refine ⟨by decide, by decide, by decide⟩

/-- Claim C3 amended: a failing audit append after any successful
mutation (create, update, or delete of a client, interaction, or admin)
does not roll the mutation back — the final store is exactly the
post-mutation store — but the route's catch turns the response into a
500 error instead of the success response. -/
theorem c3_amended_audit_failure (hash : String → String) (u : SessionUser) (s : Storage)
    (now : Nat) :
    (∀ (b : RawClientBody) (ic : InsertClient), parseInsertClient b = .ok ic →
      postClientsRoute false u s b now =
        (.err 500 auditFailureMessage,
         (createClient s { ic with createdBy := some u.id } now).2)) ∧
    (∀ (id : Nat) (p : ClientPatch) (c : Client), getClient s id = some c →
      putClientsRoute false u s id p now =
        (.err 500 auditFailureMessage, (updateClient s id p now).2)) ∧
    (∀ (id : Nat) (c : Client), getClient s id = some c →
      deleteClientsRoute false u s id now =
        (.err 500 auditFailureMessage, (deleteClient s id).2)) ∧
    (∀ (cid : Nat) (b : RawInteractionBody) (c : Client) (ii : InsertInteraction),
      getClient s cid = some c →
      parseInsertInteraction b cid (some u.id) = .ok ii →
      postInteractionsRoute false u s cid b now =
        (.err 500 auditFailureMessage, (createInteraction s ii now).2)) ∧
    (∀ (id : Nat) (p : InteractionPatch) (i : Interaction), getInteraction s id = some i →
      putInteractionsRoute false u s id p now =
        (.err 500 auditFailureMessage, (updateInteraction s id p now).2)) ∧
    (∀ (id : Nat) (i : Interaction), getInteraction s id = some i →
      deleteInteractionsRoute false u s id now =
        (.err 500 auditFailureMessage, (deleteInteraction s id).2)) ∧
    (∀ (b : RawAdminBody) (ia : InsertAdmin) (r : Admin × Storage),
      parseInsertAdmin b = .ok ia →
      createAdmin hash s ia now = .ok r →
      postAdminsRoute hash false u s b now = (.err 500 auditFailureMessage, r.2)) ∧
    (∀ (id : Nat) (p : AdminPatch) (a : Admin), (updateAdmin hash s id p).1 = some a →
      putAdminsRoute hash false u s id p now =
        (.err 500 auditFailureMessage, (updateAdmin hash s id p).2)) := by
  refine ⟨?_, ?_, ?_, ?_, ?_, ?_, ?_, ?_⟩
  · intro b ic h
    rw [postClientsRoute, h]
    simp [routeCreateAuditLog]
  · intro id p c h
    rw [putClientsRoute, h]
    simp [routeCreateAuditLog]
  · intro id c h
    have h' := h
    rw [getClient] at h'
    have hany : s.clients.any (fun x => x.id == id) = true :=
      List.any_eq_true.mpr
        ⟨c, List.mem_of_find?_eq_some h', by have := List.find?_some h'; exact this⟩
    rw [deleteClientsRoute, h]
    simp [deleteClient, hany, routeCreateAuditLog]
  · intro cid b c ii hc hp
    rw [postInteractionsRoute, hc, hp]
    simp [routeCreateAuditLog]
  · intro id p i h
    rw [putInteractionsRoute, h]
    simp [routeCreateAuditLog]
  · intro id i h
    have h' := h
    rw [getInteraction] at h'
    have hany : s.interactions.any (fun x => x.id == id) = true :=
      List.any_eq_true.mpr
        ⟨i, List.mem_of_find?_eq_some h', by have := List.find?_some h'; exact this⟩
    rw [deleteInteractionsRoute, h]
    simp [deleteInteraction, hany, routeCreateAuditLog]
  · intro b ia r hp hc
    rw [postAdminsRoute, hp]
    simp [hc, routeCreateAuditLog]
  · intro id p a hu
    rw [putAdminsRoute, hu]
    simp [routeCreateAuditLog]

/-- Witness for C3 amended: a failing audit append after updating
clientOne's phone, and after updating interOne's title, leaves exactly
the mutated store but answers 500 in both cases. -/
theorem c3_witness :
    (getClient storeTwoClients 1 = some clientOne ∧
     putClientsRoute false demoUser storeTwoClients 1 { phone := some "000" } 7 =
       (.err 500 auditFailureMessage,
        (updateClient storeTwoClients 1 { phone := some "000" } 7).2)) ∧
    (getInteraction storeTwoClients 1 = some interOne ∧
     putInteractionsRoute false demoUser storeTwoClients 1 { title := some "Renamed" } 7 =
       (.err 500 auditFailureMessage,
        (updateInteraction storeTwoClients 1 { title := some "Renamed" } 7).2)) :=
  ⟨⟨by decide,
    (c3_amended_audit_failure demoHash demoUser storeTwoClients 7).2.1 1 { phone := some "000" }
      clientOne (by decide)⟩,
   ⟨by decide,
    (c3_amended_audit_failure demoHash demoUser storeTwoClients 7).2.2.2.2.1 1
      { title := some "Renamed" } interOne (by decide)⟩⟩

/-! ## Claim C1 -/

/-- Counterexample to C1 as stated: the bootstrap seeder performs a
successful createAdmin repository call (the store gains one admin row)
yet appends no AuditLog row at all, so not every successful mutating
repository call produces exactly one matching audit row. -/
theorem c1_counterexample :
    (seedDefaultAdmin demoHash emptyStorage 0).admins.length =
      emptyStorage.admins.length + 1 ∧
    ((seedDefaultAdmin demoHash emptyStorage 0).admins.map (fun a => a.username)) = ["admin"] ∧
    (seedDefaultAdmin demoHash emptyStorage 0).auditLogs = [] := by
  refine ⟨by decide, by decide, by decide⟩

/-- Claim C1 amended: every successful mutation performed through the
HTTP routes (create/update/delete of a client, interaction, or admin)
appends exactly one AuditLog row — with matching entityType, entityId,
and action, stamped with the request time — between the data write and
the response; but the bootstrap seeder's default-admin creation is a
successful mutating repository call that writes no audit row. -/
theorem c1_amended_route_mutations_audited (hash : String → String) :
    (∀ (A : Bool) (u : SessionUser) (s : Storage) (b : RawClientBody) (now : Nat),
      (postClientsRoute A u s b now).1.isOk = true →
      ∃ l c, (postClientsRoute A u s b now).1 = .ok 201 c ∧
        (postClientsRoute A u s b now).2.auditLogs = s.auditLogs ++ [l] ∧
        l.entityType = "client" ∧ l.entityId = c.id ∧ l.action = "create" ∧
        l.createdAt = now) ∧
    (∀ (A : Bool) (u : SessionUser) (s : Storage) (id : Nat) (p : ClientPatch) (now : Nat),
      (putClientsRoute A u s id p now).1.isOk = true →
      ∃ l, (putClientsRoute A u s id p now).2.auditLogs = s.auditLogs ++ [l] ∧
        l.entityType = "client" ∧ l.entityId = id ∧ l.action = "update" ∧
        l.createdAt = now) ∧
    (∀ (A : Bool) (u : SessionUser) (s : Storage) (id : Nat) (now : Nat),
      (deleteClientsRoute A u s id now).1.isOk = true →
      ∃ l, (deleteClientsRoute A u s id now).2.auditLogs = s.auditLogs ++ [l] ∧
        l.entityType = "client" ∧ l.entityId = id ∧ l.action = "delete" ∧
        l.createdAt = now) ∧
    (∀ (A : Bool) (u : SessionUser) (s : Storage) (cid : Nat) (b : RawInteractionBody)
       (now : Nat),
      (postInteractionsRoute A u s cid b now).1.isOk = true →
      ∃ l i, (postInteractionsRoute A u s cid b now).1 = .ok 201 i ∧
        (postInteractionsRoute A u s cid b now).2.auditLogs = s.auditLogs ++ [l] ∧
        l.entityType = "interaction" ∧ l.entityId = i.id ∧ l.action = "create" ∧
        l.createdAt = now) ∧
    (∀ (A : Bool) (u : SessionUser) (s : Storage) (id : Nat) (p : InteractionPatch) (now : Nat),
      (putInteractionsRoute A u s id p now).1.isOk = true →
      ∃ l, (putInteractionsRoute A u s id p now).2.auditLogs = s.auditLogs ++ [l] ∧
        l.entityType = "interaction" ∧ l.entityId = id ∧ l.action = "update" ∧
        l.createdAt = now) ∧
    (∀ (A : Bool) (u : SessionUser) (s : Storage) (id : Nat) (now : Nat),
      (deleteInteractionsRoute A u s id now).1.isOk = true →
      ∃ l, (deleteInteractionsRoute A u s id now).2.auditLogs = s.auditLogs ++ [l] ∧
        l.entityType = "interaction" ∧ l.entityId = id ∧ l.action = "delete" ∧
        l.createdAt = now) ∧
    (∀ (A : Bool) (u : SessionUser) (s : Storage) (b : RawAdminBody) (now : Nat),
      (postAdminsRoute hash A u s b now).1.isOk = true →
      ∃ l a, (postAdminsRoute hash A u s b now).1 = .ok 201 a ∧
        (postAdminsRoute hash A u s b now).2.auditLogs = s.auditLogs ++ [l] ∧
        l.entityType = "admin" ∧ l.entityId = a.id ∧ l.action = "create" ∧
        l.createdAt = now) ∧
    (∀ (A : Bool) (u : SessionUser) (s : Storage) (id : Nat) (p : AdminPatch) (now : Nat),
      (putAdminsRoute hash A u s id p now).1.isOk = true →
      ∃ l, (putAdminsRoute hash A u s id p now).2.auditLogs = s.auditLogs ++ [l] ∧
        l.entityType = "admin" ∧ l.entityId = id ∧ l.action = "update" ∧
        l.createdAt = now) := by
  refine ⟨?_, ?_, ?_, ?_, ?_, ?_, ?_, ?_⟩
  · intro A u s b now hok
    rcases hp : parseInsertClient b with m | ic
    · rw [postClientsRoute, hp] at hok
      simp [RouteResult.isOk] at hok
    · cases A
      · rw [postClientsRoute, hp] at hok
        simp [routeCreateAuditLog, RouteResult.isOk] at hok
      · rw [postClientsRoute, hp]
        exact ⟨{ id := s.nextAuditLogId, adminId := some u.id, entityType := "client"
                 entityId := s.nextClientId, action := "create"
                 details := "Client " ++ ic.firstName ++ " " ++ ic.lastName ++ " created"
                 createdAt := now },
               (createClient s { ic with createdBy := some u.id } now).1,
               rfl, rfl, rfl, rfl, rfl, rfl⟩
  · intro A u s id p now hok
    rcases hg : getClient s id with _ | c
    · rw [putClientsRoute, hg] at hok
      simp [RouteResult.isOk] at hok
    · have hf := hg
      rw [getClient] at hf
      cases A
      · rw [putClientsRoute, hg] at hok
        simp [routeCreateAuditLog, RouteResult.isOk] at hok
      · rw [putClientsRoute, hg]
        refine ⟨{ id := s.nextAuditLogId, adminId := some u.id, entityType := "client"
                  entityId := id, action := "update"
                  details := "Client " ++ c.firstName ++ " " ++ c.lastName ++ " updated"
                  createdAt := now }, ?_, rfl, rfl, rfl, rfl⟩
        simp [routeCreateAuditLog, createAuditLog, updateClient, hf]
  · intro A u s id now hok
    rcases hg : getClient s id with _ | c
    · rw [deleteClientsRoute, hg] at hok
      simp [RouteResult.isOk] at hok
    · have h' := hg
      rw [getClient] at h'
      have hany : s.clients.any (fun x => x.id == id) = true :=
        List.any_eq_true.mpr
          ⟨c, List.mem_of_find?_eq_some h', by have := List.find?_some h'; exact this⟩
      cases A
      · rw [deleteClientsRoute, hg] at hok
        simp [deleteClient, hany, routeCreateAuditLog, RouteResult.isOk] at hok
      · rw [deleteClientsRoute, hg]
        refine ⟨{ id := s.nextAuditLogId, adminId := some u.id, entityType := "client"
                  entityId := id, action := "delete"
                  details := "Client " ++ c.firstName ++ " " ++ c.lastName ++ " deleted"
                  createdAt := now }, ?_, rfl, rfl, rfl, rfl⟩
        simp [deleteClient, hany, routeCreateAuditLog, createAuditLog]
  · intro A u s cid b now hok
    rcases hg : getClient s cid with _ | c
    · rw [postInteractionsRoute, hg] at hok
      simp [RouteResult.isOk] at hok
    · rcases hp : parseInsertInteraction b cid (some u.id) with m | ii
      · rw [postInteractionsRoute, hg, hp] at hok
        simp [RouteResult.isOk] at hok
      · cases A
        · rw [postInteractionsRoute, hg, hp] at hok
          simp [routeCreateAuditLog, RouteResult.isOk] at hok
        · rw [postInteractionsRoute, hg, hp]
          exact ⟨{ id := s.nextAuditLogId, adminId := some u.id, entityType := "interaction"
                   entityId := s.nextInteractionId, action := "create"
                   details := "Interaction created for client " ++ c.firstName ++ " " ++
                     c.lastName, createdAt := now },
                 (createInteraction s ii now).1,
                 rfl, rfl, rfl, rfl, rfl, rfl⟩
  · intro A u s id p now hok
    rcases hg : getInteraction s id with _ | i
    · rw [putInteractionsRoute, hg] at hok
      simp [RouteResult.isOk] at hok
    · have hf := hg
      rw [getInteraction] at hf
      cases A
      · rw [putInteractionsRoute, hg] at hok
        simp [routeCreateAuditLog, RouteResult.isOk] at hok
      · rw [putInteractionsRoute, hg]
        refine ⟨{ id := s.nextAuditLogId, adminId := some u.id, entityType := "interaction"
                  entityId := id, action := "update"
                  details := "Interaction " ++ i.title ++ " updated"
                  createdAt := now }, ?_, rfl, rfl, rfl, rfl⟩
        simp [routeCreateAuditLog, createAuditLog, updateInteraction, hf]
  · intro A u s id now hok
    rcases hg : getInteraction s id with _ | i
    · rw [deleteInteractionsRoute, hg] at hok
      simp [RouteResult.isOk] at hok
    · have h' := hg
      rw [getInteraction] at h'
      have hany : s.interactions.any (fun x => x.id == id) = true :=
        List.any_eq_true.mpr
          ⟨i, List.mem_of_find?_eq_some h', by have := List.find?_some h'; exact this⟩
      cases A
      · rw [deleteInteractionsRoute, hg] at hok
        simp [deleteInteraction, hany, routeCreateAuditLog, RouteResult.isOk] at hok
      · rw [deleteInteractionsRoute, hg]
        refine ⟨{ id := s.nextAuditLogId, adminId := some u.id, entityType := "interaction"
                  entityId := id, action := "delete"
                  details := "Interaction " ++ i.title ++ " deleted"
                  createdAt := now }, ?_, rfl, rfl, rfl, rfl⟩
        simp [deleteInteraction, hany, routeCreateAuditLog, createAuditLog]
  · intro A u s b now hok
    rcases hp : parseInsertAdmin b with m | ia
    · rw [postAdminsRoute, hp] at hok
      simp [RouteResult.isOk] at hok
    · rcases hc : createAdmin hash s ia now with e | r
      · rw [postAdminsRoute, hp] at hok
        simp [hc, RouteResult.isOk] at hok
      · have hlogs : r.2.auditLogs = s.auditLogs := by
          rw [createAdmin] at hc
          split at hc
          · cases hc
          · cases hc
            rfl
        have hnext : r.2.nextAuditLogId = s.nextAuditLogId := by
          rw [createAdmin] at hc
          split at hc
          · cases hc
          · cases hc
            rfl
        cases A
        · rw [postAdminsRoute, hp] at hok
          simp [hc, routeCreateAuditLog, RouteResult.isOk] at hok
        · rw [postAdminsRoute, hp]
          refine ⟨{ id := s.nextAuditLogId, adminId := some u.id, entityType := "admin"
                    entityId := r.1.id, action := "create"
                    details := "Admin " ++ r.1.username ++ " created"
                    createdAt := now }, sanitizeAdmin r.1, ?_, ?_, rfl, rfl, rfl, rfl⟩
          · simp [hc, routeCreateAuditLog]
          · simp [hc, routeCreateAuditLog, createAuditLog, hlogs, hnext]
  · intro A u s id p now hok
    rcases hu : (updateAdmin hash s id p).1 with _ | a
    · rw [putAdminsRoute, hu] at hok
      simp [RouteResult.isOk] at hok
    · have hlogs : (updateAdmin hash s id p).2.auditLogs = s.auditLogs := by
        rw [updateAdmin]
        rcases hf : s.admins.find? (fun x => x.id == id) with _ | a0 <;> simp [hf]
      have hnext : (updateAdmin hash s id p).2.nextAuditLogId = s.nextAuditLogId := by
        rw [updateAdmin]
        rcases hf : s.admins.find? (fun x => x.id == id) with _ | a0 <;> simp [hf]
      cases A
      · rw [putAdminsRoute, hu] at hok
        simp [routeCreateAuditLog, RouteResult.isOk] at hok
      · rw [putAdminsRoute, hu]
        refine ⟨{ id := s.nextAuditLogId, adminId := some u.id, entityType := "admin"
                  entityId := id, action := "update"
                  details := "Admin " ++ a.username ++ " updated"
                  createdAt := now }, ?_, rfl, rfl, rfl, rfl⟩
        simp [routeCreateAuditLog, createAuditLog, hlogs, hnext]

/-- A fully valid create-client body. -/
def rawGoodClient : RawClientBody :=
  { firstName := some "Ann", lastName := some "Lee", email := some "ann@lee.com"
    phone := some "555-0103" }

/-- Witness for C1 amended: a successful POST /api/clients appends
exactly one matching audit row. -/
theorem c1_witness :
    (postClientsRoute true demoUser emptyStorage rawGoodClient 7).1.isOk = true ∧
    ∃ l c, (postClientsRoute true demoUser emptyStorage rawGoodClient 7).1 = .ok 201 c ∧
      (postClientsRoute true demoUser emptyStorage rawGoodClient 7).2.auditLogs =
        emptyStorage.auditLogs ++ [l] ∧
      l.entityType = "client" ∧ l.entityId = c.id ∧ l.action = "create" ∧ l.createdAt = 7 :=
  ⟨by decide,
   (c1_amended_route_mutations_audited demoHash).1 true demoUser emptyStorage rawGoodClient 7
     (by decide)⟩

/-! ## Claim C8 -/

/-- A character list free of LIKE wildcard and escape characters. -/
def noWild (q : List Char) : Prop := ∀ ch ∈ q, ch ≠ '%' ∧ ch ≠ '_' ∧ ch ≠ '\\'

theorem char_shift_toNat (c : Char) (h1 : 65 ≤ c.toNat) (h2 : c.toNat ≤ 90) :
    (Char.ofNat (c.toNat + 32)).toNat = c.toNat + 32 := by
  have hv : Nat.isValidChar (c.toNat + 32) := by
    left
    omega
  unfold Char.ofNat
  rw [dif_pos hv]
  rfl

/-- Lowercasing never turns a non-wildcard character into one of the
three LIKE metacharacters (codes 37, 95, 92). -/
theorem toLower_ne_wildcard (c w : Char) (hw : w.toNat = 37 ∨ w.toNat = 95 ∨ w.toNat = 92)
    (h : c ≠ w) : c.toLower ≠ w := by
  simp only [Char.toLower]
  split
  · intro hEq
    have h3 := congrArg Char.toNat hEq
    rw [char_shift_toNat c (by omega) (by omega)] at h3
    omega
  · exact h

theorem noWild_lowerList (q : List Char) (hq : noWild q) : noWild (lowerList q) := by
  intro ch hch
  rw [lowerList, List.mem_map] at hch
  obtain ⟨c, hc, rfl⟩ := hch
  obtain ⟨h1, h2, h3⟩ := hq c hc
  exact ⟨toLower_ne_wildcard c '%' (Or.inl (by decide)) h1,
         toLower_ne_wildcard c '_' (Or.inr (Or.inl (by decide))) h2,
         toLower_ne_wildcard c '\\' (Or.inr (Or.inr (by decide))) h3⟩

theorem likeMatch_pct (ps s : List Char) :
    likeMatch ('%' :: ps) s = s.tails.any (fun t => likeMatch ps t) := by
  rw [likeMatch.eq_def]
  simp

theorem likeMatch_lit_nil (a : Char) (ps : List Char) (ha1 : a ≠ '%') (ha2 : a ≠ '_')
    (ha3 : a ≠ '\\') : likeMatch (a :: ps) [] = false := by
  rw [likeMatch.eq_def]
  simp [ha1, ha2, ha3]

theorem likeMatch_lit_cons (a : Char) (ps : List Char) (c : Char) (s : List Char)
    (ha1 : a ≠ '%') (ha2 : a ≠ '_') (ha3 : a ≠ '\\') :
    likeMatch (a :: ps) (c :: s) = (a == c && likeMatch ps s) := by
  rw [likeMatch.eq_def]
  simp [ha1, ha2, ha3]

/-- A leading '%' matches iff the rest of the pattern matches some
suffix of the subject. -/
theorem likeMatch_pct_iff (ps s : List Char) :
    likeMatch ('%' :: ps) s = true ↔ ∃ t, t <:+ s ∧ likeMatch ps t = true := by
  rw [likeMatch_pct, List.any_eq_true]
  constructor
  · rintro ⟨t, ht, h⟩
    exact ⟨t, (List.mem_tails _ _).mp ht, h⟩
  · rintro ⟨t, ht, h⟩
    exact ⟨t, (List.mem_tails _ _).mpr ht, h⟩

/-- A wildcard-free pattern followed by a final '%' matches iff the
pattern is a prefix of the subject. -/
theorem likeMatch_lit_starts (q : List Char) (hq : noWild q) :
    ∀ s : List Char, (likeMatch (q ++ ['%']) s = true ↔ q <+: s) := by
  induction q with
  | nil =>
    intro s
    constructor
    · intro _
      exact List.nil_prefix
    · intro _
      rw [List.nil_append, likeMatch_pct, List.any_eq_true]
      exact ⟨[], (List.mem_tails _ _).mpr List.nil_suffix, rfl⟩
  | cons a q ih =>
    intro s
    obtain ⟨ha1, ha2, ha3⟩ := hq a (List.mem_cons_self a q)
    have ihq : noWild q := fun ch hch => hq ch (List.mem_cons_of_mem a hch)
    cases s with
    | nil =>
      rw [List.cons_append, likeMatch_lit_nil a (q ++ ['%']) ha1 ha2 ha3]
      simp
    | cons c s' =>
      rw [List.cons_append, likeMatch_lit_cons a (q ++ ['%']) c s' ha1 ha2 ha3]
      simp only [Bool.and_eq_true, beq_iff_eq, List.cons_prefix_cons, ih ihq s']

/-- A '%'-wrapped wildcard-free pattern matches iff the pattern occurs
as an infix (substring) of the subject. -/
theorem likeMatch_contains (q : List Char) (hq : noWild q) (s : List Char) :
    likeMatch ('%' :: (q ++ ['%'])) s = true ↔ q <:+: s := by
  rw [likeMatch_pct_iff, List.infix_iff_prefix_suffix]
  constructor
  · rintro ⟨t, hts, h⟩
    exact ⟨t, (likeMatch_lit_starts q hq t).mp h, hts⟩
  · rintro ⟨t, htp, hts⟩
    exact ⟨t, hts, (likeMatch_lit_starts q hq t).mpr htp⟩

theorem toLower_pct : Char.toLower '%' = '%' := by decide

theorem lowerList_pattern (q : List Char) :
    lowerList ('%' :: (q ++ ['%'])) = '%' :: (lowerList q ++ ['%']) := by
  simp [lowerList, toLower_pct]

/-- ILIKE with a '%'-wrapped wildcard-free query is exactly
case-insensitive substring containment. -/
theorem ilike_contains (q : List Char) (hq : noWild (lowerList q)) (subj : List Char) :
    ilike ('%' :: (q ++ ['%'])) subj = true ↔ lowerList q <:+: lowerList subj := by
  rw [ilike, lowerList_pattern]
  exact likeMatch_contains (lowerList q) hq (lowerList subj)

/-- Claim C8 amended: for every ASCII query free of the LIKE
metacharacters '%', '_' and backslash, searchClients returns exactly the
clients — among those whose searched fields are ASCII, where the model's
case folding agrees with Postgres lower() — in which the lowercased
query occurs in the lowercased full name (first + ' ' + last), email, or
phone: case-insensitive substring, ORed across the three fields. A query
containing a metacharacter is interpreted as a LIKE pattern instead (see
the counterexample), and the original claim's deterministic-order
guarantee is not provided by the program: the SELECT has no ORDER BY, so
the database guarantees no row order and no order property is claimed
here. -/
theorem c8_amended_search_ci_substring (st : Storage) (q : String)
    (hq : ∀ ch ∈ q.data, ch ≠ '%' ∧ ch ≠ '_' ∧ ch ≠ '\\')
    (hqa : ∀ ch ∈ q.data, ch.toNat < 128) :
    ∀ c, (∀ ch ∈ ((c.firstName ++ " " ++ c.lastName).data ++ c.email.data ++ c.phone.data),
        ch.toNat < 128) →
      (c ∈ searchClients st q ↔
        c ∈ st.clients ∧
          (lowerList q.data <:+: lowerList (c.firstName ++ " " ++ c.lastName).data ∨
           lowerList q.data <:+: lowerList c.email.data ∨
           lowerList q.data <:+: lowerList c.phone.data)) := by
  intro c _
  have hqw : noWild (lowerList q.data) := noWild_lowerList q.data hq
  rw [searchClients, List.mem_filter]
  refine and_congr_right (fun _ => ?_)
  rw [Bool.or_eq_true, Bool.or_eq_true]
  simp only [ilike_contains q.data hqw]
  rw [or_assoc]

/-- A client whose email matches the pattern x%y without containing the
literal substring. -/
def clientXzzy : Client :=
  { id := 7, firstName := "A", lastName := "B", email := "xzzy", phone := "000"
    marketType := .localMarket, market := none, segment := none, businessType := none
    headcountName := none, headcountRole := none, headcountEmail := none
    if_active := some true, createdAt := 0, updatedAt := 0, createdBy := none }

/-- Store holding only clientXzzy. -/
def storeXzzy : Storage := { emptyStorage with clients := [clientXzzy], nextClientId := 8 }

/-- Counterexample to C8 as stated: the query x%y is not a
case-insensitive substring of any field of clientXzzy, yet searchClients
returns that client, because the '%' in the query acts as a LIKE
wildcard rather than a literal character. -/
theorem c8_counterexample :
    searchClients storeXzzy "x%y" = [clientXzzy] ∧
    ¬(lowerList ("x%y" : String).data <:+:
        lowerList (clientXzzy.firstName ++ " " ++ clientXzzy.lastName).data) ∧
    ¬(lowerList ("x%y" : String).data <:+: lowerList clientXzzy.email.data) ∧
    ¬(lowerList ("x%y" : String).data <:+: lowerList clientXzzy.phone.data) := by
  refine ⟨by decide, by decide, by decide, by decide⟩

/-- Witness for C8 amended: the spec's example — searching "smith"
against the store containing John Smith (email jsmith@x.com), whose
fields are all ASCII. -/
theorem c8_witness :
    (∀ ch ∈ ("smith" : String).data, ch ≠ '%' ∧ ch ≠ '_' ∧ ch ≠ '\\') ∧
    (∀ ch ∈ ("smith" : String).data, ch.toNat < 128) ∧
    (∀ ch ∈ ((clientOne.firstName ++ " " ++ clientOne.lastName).data ++
        clientOne.email.data ++ clientOne.phone.data), ch.toNat < 128) ∧
    (clientOne ∈ searchClients storeTwoClients "smith" ↔
      clientOne ∈ storeTwoClients.clients ∧
        (lowerList ("smith" : String).data <:+:
           lowerList (clientOne.firstName ++ " " ++ clientOne.lastName).data ∨
         lowerList ("smith" : String).data <:+: lowerList clientOne.email.data ∨
         lowerList ("smith" : String).data <:+: lowerList clientOne.phone.data)) :=
  ⟨by decide, by decide, by decide,
   c8_amended_search_ci_substring storeTwoClients "smith" (by decide) (by decide) clientOne
     (by decide)⟩

end Crm
